import Mathlib

set_option maxRecDepth 16384

/-!
Shallow embedding of the Gemini tool-calling analysis endpoint of
`src/app.py` (Flask route `/api/gemini_analysis`, function `gemini_analysis`),
together with the simulated search tool `search_internet` and the
context-assembly code that renders the candidate-event list.

Conventions of the embedding:

* Python strings are Lean `String`s; Python's truthiness test on an optional
  string field (`data.get(...)` produces `None` or a string; `all([...])`
  tests each value for truthiness, so `None` and `""` are both falsy) is the
  `truthy` predicate on `Option String`.
* The generative model is an external collaborator.  It is modelled as an
  oracle `ModelOracle : List ChatMessage → GeminiResponse` mapping the chat
  history sent so far (`chat.send_message` appends one message and returns the
  model's reply) to the model's next response.  Quantifying over all oracles
  covers every possible sequence of model replies.
* The MongoDB events collection is an external read-only source; the cursor
  iteration of lines 190-204 either yields a list of records or raises, so it
  is modelled as `Except String (List EventRecord)`; the
  `isoformat()` conversion of the date fields is pre-applied, giving
  `Option String` date fields (`None` when the stored value is not a
  `datetime`).
* Python exceptions are `Except String`: the `KeyError` raised by
  `call.args['query']` when the model supplies no `query` argument carries the
  message `str(KeyError('query')) = "'query'"`.
* The unbounded `while True:` loop of lines 253-305 is embedded with explicit
  fuel counting the number of `chat.send_message` round trips; the fueled run
  returns `none` when the fuel is exhausted while the loop is still going, so
  `(∀ fuel, run fuel = none)` expresses a non-terminating execution.
* The HTTP layer (`jsonify`, status codes) is collapsed into the
  `AnalysisResult` type, which keeps the JSON payload and the status code.
-/

/-- Contiguous containment of one character list in another; helper for the
Python `in` operator on strings (`pat in s`). -/
def containsAux (pat : List Char) : List Char → Bool
  | [] => false
  | c :: cs => pat.isPrefixOf (c :: cs) || containsAux pat cs

/-- Python `pat in s` for strings: `pat` occurs contiguously in `s` (the empty
pattern is contained in every string). -/
def strContains (s pat : String) : Bool :=
  pat.toList.isEmpty || containsAux pat.toList s.toList

/-- Python `s.lower()`, character by character (ASCII case folding, which is
what the queries in `search_internet` exercise). -/
def lowerStr (s : String) : String := String.mk (s.toList.map Char.toLower)

/-- Truthiness of an optional string field, as tested by `all([...])` on
line 185 of `src/app.py`: `None` and the empty string are falsy. -/
def truthy : Option String → Bool
  | none => false
  | some s => !(s == "")

/-- Python `str()` rendering of an optional string inside an f-string:
`None` prints as `"None"`. -/
def optStr : Option String → String
  | none => "None"
  | some s => s

/-- Simulated internet search, `search_internet` of `src/app.py`
lines 43-69: a pure function of the query string, keyed on substring tests. -/
def search_internet (query : String) : String :=
  if strContains query "latitude59.ee" then
    "El sitio web Latitude59.ee describe el evento Latitude 59 como la principal conferencia de startups y tecnología en los países bálticos. Se centra en la innovación, inversión, networking, y presenta pitches de startups de IA, SaaS, fintech y blockchain. Es un punto de encuentro para emprendedores, inversores y líderes tecnológicos."
  else if strContains query "slush.org" then
    "El sitio web Slush.org presenta Slush como una de las conferencias de startups y tecnología más grandes del mundo, originaria de Helsinki. Se enfoca en la financiación de startups, el crecimiento empresarial, la conexión entre fundadores e inversores, y cubre temas como IA, sostenibilidad, deep tech y mercados emergentes."
  else if strContains query "websummit.com" then
    "El sitio web WebSummit.com describe el Web Summit como \x27la conferencia de tecnología más grande del mundo\x27, que reúne a CEOs de Fortune 500, startups, inversores y periodistas. Cubre una amplia gama de temas tecnológicos, desde IA y software empresarial hasta impacto social y cultura tecnológica. Es un evento masivo de networking."
  else if strContains query "mwcbarcelona.com" then
    "El sitio web MWCBarcelona.com es la página oficial del Mobile World Congress, la mayor feria mundial de la industria móvil. Se centra en la conectividad, 5G, IoT, IA móvil, realidad virtual/aumentada y hardware. Es un evento clave para empresas de telecomunicaciones y fabricantes de dispositivos."
  else if strContains query "techcrunch.com/events/disrupt" then
    "El sitio web de TechCrunch Disrupt describe el evento como una plataforma para startups emergentes. Incluye el famoso \x27Startup Battlefield\x27 donde las startups compiten por financiación, charlas de líderes de la industria, y oportunidades de networking. Se centra en la innovación disruptiva en diversos sectores tecnológicos."
  else if strContains query "voicit.es" || strContains query "kimeratechnologies.com" then
    "El sitio web de la startup se enfoca en soluciones de IA para el sector de eCommerce, específicamente en búsqueda y recomendación de productos mediante inteligencia artificial. Su tecnología SaaS ayuda a empresas B2B a mejorar la experiencia de compra online y la eficiencia operativa."
  else if strContains (lowerStr query) "ia" || strContains (lowerStr query) "inteligencia artificial" then
    "La Inteligencia Artificial (IA) es un campo de la informática que se enfoca en la creación de máquinas inteligentes que funcionan y reaccionan como humanos. Incluye aprendizaje automático (Machine Learning), procesamiento de lenguaje natural (NLP), visión por computadora y robótica. La IA está transformando industrias como RRHH y finanzas."
  else if strContains (lowerStr query) "rrhh" || strContains (lowerStr query) "recursos humanos" then
    "El sector de Recursos Humanos (RRHH) está experimentando una transformación digital. Las herramientas de IA en RRHH se utilizan para la automatización de procesos de contratación, análisis de talento, personalización de la experiencia del empleado y mejora de la eficiencia operativa. SaaS es un modelo común para estas soluciones."
  else if strContains (lowerStr query) "saas" || strContains (lowerStr query) "software como servicio" then
    "Software as a Service (SaaS) es un modelo de entrega de software donde el software es licenciado por suscripción y se aloja centralmente. Es una forma común de ofrecer aplicaciones empresariales y de consumo, proporcionando escalabilidad y accesibilidad. Muchas startups de IA operan bajo este modelo."
  else
    "Resultados de búsqueda simulados para \x27" ++ query ++ "\x27: Información general relevante para tecnología y startups."

/-- A `function_call` part produced by the model: tool name plus the argument
mapping (the declared schema has a single STRING property `query`). -/
structure FunctionCall where
  name : String
  args : List (String × String)
deriving DecidableEq

/-- Payload of a `FunctionResponse` sent back to the model: either
`{result: ...}` (line 282-285) or `{error: ...}` (line 293-297). -/
inductive ToolPayload where
  | result (s : String)
  | error (s : String)
deriving DecidableEq

/-- One `genai.protos.Part(function_response=...)` appended to
`tool_responses_parts`. -/
structure FunctionResponsePart where
  name : String
  response : ToolPayload
deriving DecidableEq

/-- One content part of a model response (the proto `Part`; named `MsgPart`
here because Mathlib already declares `Part`): `part.function_call` is the
falsy empty message (here `none`) when absent, and `part.text` is the empty
string when absent. -/
structure MsgPart where
  function_call : Option FunctionCall := none
  text : String := ""
deriving DecidableEq

/-- One candidate of a model response; the proto `content` wrapper is
collapsed to its `parts` list (an absent/falsy `content` has no parts). -/
structure Candidate where
  parts : List MsgPart
deriving DecidableEq

/-- A model response as inspected by the handler:
`response.candidates[0].content.parts`. -/
structure GeminiResponse where
  candidates : List Candidate
deriving DecidableEq

/-- One message sent to the model with `chat.send_message`: the initial prompt
string (line 246) or a batch of tool-response parts (line 303). -/
inductive ChatMessage where
  | prompt (text : String)
  | toolResults (parts : List FunctionResponsePart)
deriving DecidableEq

/-- The external generative model: maps the full history of messages sent so
far to the response returned by the latest `chat.send_message`. -/
abbrev ModelOracle := List ChatMessage → GeminiResponse

/-- One raw document of the `events` collection as consumed by lines 192-201:
every field may be absent, and the date fields are already rendered through
`isoformat()` (yielding `none` when the stored value was not a `datetime`). -/
structure EventRecord where
  name : Option String
  description : Option String
  location : Option String
  initialDate : Option String
  finalDate : Option String
  website : Option String
deriving DecidableEq

/-- One entry of `all_events_for_gemini` (lines 194-201): the description is
defaulted, the other fields keep their optional values. -/
structure GeminiEvent where
  name : Option String
  description : String
  location : Option String
  initialDate : Option String
  finalDate : Option String
  website : Option String
deriving DecidableEq

/-- Lines 194-201: the dict built for one event document. -/
def toGeminiEvent (e : EventRecord) : GeminiEvent :=
  ⟨e.name, e.description.getD "No hay descripción disponible.", e.location,
    e.initialDate, e.finalDate, e.website⟩

/-- Lines 190-204: build `all_events_for_gemini`; a failure of the events
source is logged and leaves the list empty (the `except` branch of line 202
does not re-raise). -/
def buildEventsForGemini : Except String (List EventRecord) → List GeminiEvent
  | Except.error _ => []
  | Except.ok evs => evs.map toGeminiEvent

/-- Line 206: the rendered line for one candidate event. -/
def renderEventLine (e : GeminiEvent) : String :=
  "- Nombre: " ++ optStr e.name ++ ", Descripción: " ++ e.description ++
    ", Ubicación: " ++ optStr e.location ++ ", Fechas: " ++ optStr e.initialDate ++
    " a " ++ optStr e.finalDate

/-- Lines 205-208: `events_list_str`, the newline-joined rendering of all
candidate events other than the event under evaluation. -/
def eventsListStr (events : List GeminiEvent) (eventName : Option String) : String :=
  String.intercalate "\n" ((events.filter (fun e => e.name ≠ eventName)).map renderEventLine)

/-- The JSON result of the endpoint: `{analysis: ...}` with status 200, or
`{error: ..., details?: ...}` with the given status code. -/
inductive AnalysisResult where
  | success (analysis : String)
  | failure (error : String) (details : Option String) (status : Nat)
deriving DecidableEq

/-- The parsed request body of `/api/gemini_analysis`: the six fields read by
`data.get(...)` on lines 176-181, each possibly absent. -/
structure AnalysisRequest where
  eventName : Option String
  eventWebsite : Option String
  startupName : Option String
  startupDescription : Option String
  startupSector : Option String
  startupWebsite : Option String
deriving DecidableEq

/-- The literal text of the prompt f-string (lines 210-242) up to the
candidate-list substitution of line 237, with the request fields spliced in. -/
def promptHead (startup_name startup_description startup_sector startup_website
    event_name event_website : String) : String :=
  "\n        Eres un asistente experto en el ecosistema de eventos de tecnología y startups. Tu tarea es analizar un evento específico y la información detallada de una startup, y determinar si el evento es de interés para esa startup. Si no lo es, debes recomendar otro evento de una lista proporcionada.\n\n        Aquí tienes la información clave:\n        - Nombre de la startup actual: \"" ++
  startup_name ++
  "\"\n        - Descripción de la Startup del Usuario: \"" ++
  startup_description ++
  "\"\n        - Sector de la Startup del Usuario: \"" ++
  startup_sector ++
  "\"\n        - URL del Sitio Web de la Startup: \"" ++
  startup_website ++
  "\"\n        - Nombre del Evento Actual: \"" ++
  event_name ++
  "\"\n        - URL del Sitio Web del Evento Actual: \"" ++
  event_website ++
  "\"\n\n        **Paso 1: Investigación Contextual.**\n        Usa la herramienta `search_internet` con la URL del sitio web del evento actual (\"" ++
  event_website ++
  "\") para obtener una comprensión de su temática, enfoque y audiencia. Haz lo mismo con la URL del sitio web de la startup seleccionada (\"" ++
  startup_website ++
  "\") para entender mejor sus productos, servicios y propuesta de valor.\n\n        **Paso 2: Evaluación de Interés.**\n        Basado en la información recopilada de ambos sitios web (evento y startup), la descripción de la startup y su sector, determina si el evento actual es de interés para la startup \"" ++
  startup_name ++
  "\". Considera si el evento ofrece oportunidades de networking, visibilidad para soluciones en su sector (IA, RRHH, SaaS), posibles clientes, inversores, o conocimiento relevante para su crecimiento.\n\n        **Paso 3: Generación de Respuesta.**\n        Crea una respuesta concisa de aproximadamente 100 palabras (unos 500-700 caracteres).\n\n        **Si el evento es de interés para la startup:**\n        Explica claramente por qué ese evento es relevante para la startup \"" ++
  startup_name ++
  "\", destacando los beneficios específicos que podría obtener al asistir o participar.\n\n        **Si el evento NO es de interés (o es menos relevante) para la startup:**\n        Explica por qué no se alinea bien con los objetivos de \"" ++
  startup_name ++
  "\". Luego, **recomienda un evento alternativo** de la siguiente lista de eventos disponibles que crees que sería más adecuado para la startup, y justifica tu recomendación. Si no hay otros eventos adecuados, indícalo.\n\n        **Lista de Otros Eventos Disponibles para Recomendación (si aplica):**\n        "

/-- The literal text of the prompt f-string after the candidate-list
substitution (lines 238-242). -/
def promptTail (startup_name : String) : String :=
  "\n\n        **Formato de la Respuesta:**\n        - Si es de interés: \"¡Este evento es muy prometedor para " ++
  startup_name ++
  "! [Explicación detallada de por qué, mencionando la relación con IA, RRHH, SaaS, networking, etc. Máx. ~100 palabras]\"\n        - Si NO es de interés: \"Este evento parece menos alineado con los objetivos de " ++
  startup_name ++
  ". [Explicación concisa y recomendación de un evento alternativo de la lista, justificando por qué es mejor. Máx. ~100 palabras]\"\n        "

/-- The empty-list sentinel of line 237, substituted when `events_list_str`
is falsy. -/
def noAlternativesSentinel : String :=
  "No hay otros eventos disponibles para recomendar."

/-- The full prompt of lines 210-242 as a function of the request fields and
`events_list_str`; line 237 substitutes the sentinel when the rendered list is
empty. -/
def buildPrompt (startup_name startup_description startup_sector startup_website
    event_name event_website events_list_str : String) : String :=
  promptHead startup_name startup_description startup_sector startup_website
      event_name event_website ++
    (if events_list_str == "" then noAlternativesSentinel else events_list_str) ++
    promptTail startup_name

/-- Lines 275-299: handle one collected `function_call`.  A `search_internet`
call reads `call.args['query']` (raising `KeyError('query')` when the argument
is absent — that exception is NOT caught here) and wraps the search result in
a `{result: ...}` response part; any other tool name yields a
`{error: ...}` response part. -/
def handleCall (call : FunctionCall) : Except String FunctionResponsePart :=
  if call.name = "search_internet" then
    match call.args.lookup "query" with
    | some q => Except.ok ⟨"search_internet", ToolPayload.result (search_internet q)⟩
    | none => Except.error "\x27query\x27"
  else
    Except.ok ⟨call.name, ToolPayload.error "Herramienta no reconocida o no implementada."⟩

/-- Lines 273-299: the `for call in current_turn_function_calls` loop, which
appends one response part per call to the accumulator `tool_responses_parts`;
an exception from `handleCall` aborts the remainder of the batch. -/
def dispatchInto (acc : List FunctionResponsePart) :
    List FunctionCall → Except String (List FunctionResponsePart)
  | [] => Except.ok acc
  | c :: cs =>
    match handleCall c with
    | Except.ok p => dispatchInto (acc ++ [p]) cs
    | Except.error e => Except.error e

/-- Lines 264-267: collect every `function_call` part of the current turn, in
part order. -/
def collectFunctionCalls (parts : List MsgPart) : List FunctionCall :=
  parts.filterMap (fun p => p.function_call)

/-- Lines 255-256: the structural guard of the loop — the response has a first
candidate whose content has at least one part. -/
def structureCheck (resp : GeminiResponse) : Bool :=
  match resp.candidates with
  | [] => false
  | c :: _ => !c.parts.isEmpty

/-- The parts of the first candidate (empty when there is no candidate). -/
def firstParts (resp : GeminiResponse) : List MsgPart :=
  match resp.candidates with
  | [] => []
  | c :: _ => c.parts

/-- Lines 308-312: the final structural check — first candidate, first part,
truthy `text` field — yielding the terminal text when it passes. -/
def finalText (resp : GeminiResponse) : Option String :=
  match resp.candidates with
  | [] => none
  | c :: _ =>
    match c.parts with
    | [] => none
    | p :: _ => if p.text == "" then none else some p.text

/-- Lines 313-315: hard character-cut truncation of the final text to at most
700 characters, replacing the tail with an ellipsis marker. -/
def truncateAnalysis (s : String) : String :=
  if 700 < s.length then s.take 697 ++ "..." else s

/-- The `while True:` tool-call loop of lines 253-305, with explicit fuel
bounding the number of `chat.send_message` round trips performed (the source
itself has NO such bound).  Arguments: the model oracle, the fuel, the latest
response, the chat history already sent, and the current contents of the
`tool_responses_parts` accumulator (cleared to `[]` after every send on
line 304).  Returns `Except.error e` when a tool handler raises, `Except.ok
none` when the fuel is exhausted with the loop still running, and `Except.ok
(some (resp, msgs))` when the loop exits with final response `resp` after
sending the tool-result messages `msgs` (one list entry per resubmission). -/
def toolLoop (oracle : ModelOracle) :
    Nat → GeminiResponse → List ChatMessage → List FunctionResponsePart →
      Except String (Option (GeminiResponse × List (List FunctionResponsePart)))
  | 0, _, _, _ => Except.ok none
  | fuel + 1, resp, hist, acc =>
    if structureCheck resp then
      let calls := collectFunctionCalls (firstParts resp)
      if calls.isEmpty then Except.ok (some (resp, []))
      else
        match dispatchInto acc calls with
        | Except.error e => Except.error e
        | Except.ok batch =>
          let hist2 := hist ++ [ChatMessage.toolResults batch]
          match toolLoop oracle fuel (oracle hist2) hist2 [] with
          | Except.error e => Except.error e
          | Except.ok none => Except.ok none
          | Except.ok (some (r, msgs)) => Except.ok (some (r, batch :: msgs))
    else Except.ok (some (resp, []))

/-- The error body of line 187 (missing request fields, HTTP 400). -/
def missingFieldsResult : AnalysisResult :=
  AnalysisResult.failure "Faltan datos en la solicitud para el análisis de Gemini." none 400

/-- The error body of line 320 (no valid final text, HTTP 500). -/
def invalidAnalysisResult : AnalysisResult :=
  AnalysisResult.failure "Gemini no pudo generar un análisis válido. Inténtalo de nuevo. Revisa los logs del servidor para más detalles." none 500

/-- The `/api/gemini_analysis` handler, lines 174-324, as a function of the
model oracle, the events source, the parsed request body, and the fuel
bounding the number of model round trips.  `none` means the run was still
inside the (unbounded) tool-call loop when the fuel ran out; `some r` is the
JSON result returned to the caller. -/
def gemini_analysis (oracle : ModelOracle) (eventsSource : Except String (List EventRecord))
    (data : AnalysisRequest) (fuel : Nat) : Option AnalysisResult :=
  if !(truthy data.eventName && truthy data.eventWebsite && truthy data.startupName &&
      truthy data.startupDescription && truthy data.startupSector &&
      truthy data.startupWebsite) then
    some missingFieldsResult
  else
    let allEvents := buildEventsForGemini eventsSource
    let listStr := eventsListStr allEvents data.eventName
    let prompt := buildPrompt (optStr data.startupName) (optStr data.startupDescription)
      (optStr data.startupSector) (optStr data.startupWebsite) (optStr data.eventName)
      (optStr data.eventWebsite) listStr
    let hist0 : List ChatMessage := [ChatMessage.prompt prompt]
    match toolLoop oracle fuel (oracle hist0) hist0 [] with
    | Except.error e =>
      some (AnalysisResult.failure "Fallo al obtener el análisis de Gemini" (some e) 500)
    | Except.ok none => none
    | Except.ok (some (resp, _)) =>
      match finalText resp with
      | some t => some (AnalysisResult.success (truncateAnalysis t))
      | none => some invalidAnalysisResult

/-! Concrete fixtures used by the theorems: a fully populated request, partial
requests, and model oracles exercising the different loop behaviours. -/

/-- A request with all six fields present and non-empty (values drawn from the
repository's own seed data). -/
def sampleRequest : AnalysisRequest :=
  ⟨some "Slush", some "https://www.slush.org/", some "Voicit",
    some "Voicit es la herramienta basada en IA para consultoras de RRHH",
    some "RRHH, IA, SaaS", some "https://voicit.es/"⟩

/-- A request carrying only the two spec-required fields (`eventName`,
`startupDescription`). -/
def minimalRequest : AnalysisRequest :=
  ⟨some "Slush", none, none, some "AI HR SaaS tool", none, none⟩

/-- A request missing only `startupDescription`. -/
def noDescRequest : AnalysisRequest :=
  ⟨some "Slush", some "https://www.slush.org/", some "Voicit", none,
    some "RRHH, IA, SaaS", some "https://voicit.es/"⟩

/-- A request in which `eventWebsite` is present but the empty string. -/
def emptyFieldRequest : AnalysisRequest :=
  ⟨some "Slush", some "", some "Voicit",
    some "Voicit es la herramienta basada en IA para consultoras de RRHH",
    some "RRHH, IA, SaaS", some "https://voicit.es/"⟩

/-- A well-formed `search_internet` call. -/
def searchCall : FunctionCall := ⟨"search_internet", [("query", "https://www.slush.org/")]⟩

/-- A model part requesting `searchCall`. -/
def searchCallPart : MsgPart := { function_call := some searchCall }

/-- A model turn consisting of one `search_internet` tool-call part. -/
def toolCallResponse : GeminiResponse := ⟨[⟨[searchCallPart]⟩]⟩

/-- A model that requests a tool call on every turn, forever. -/
def alwaysToolOracle : ModelOracle := fun _ => toolCallResponse

/-- A model turn consisting of a single text part. -/
def textResponse (t : String) : GeminiResponse := ⟨[⟨[{ text := t }]⟩]⟩

/-- A model that immediately answers with final text `t`. -/
def textOracle (t : String) : ModelOracle := fun _ => textResponse t

/-- A tool call whose name is not a registered tool. -/
def unknownCall : FunctionCall := ⟨"fetch_weather", [("city", "Helsinki")]⟩

/-- A model part requesting `unknownCall`. -/
def unknownCallPart : MsgPart := { function_call := some unknownCall }

/-- The final text produced in the unknown-tool scenario. -/
def unknownFinalText : String :=
  "¡Este evento es muy prometedor para Voicit! El networking con inversores y la visibilidad en IA, RRHH y SaaS encajan con sus objetivos."

/-- A model whose first turn requests an unknown tool together with a
`search_internet` call, and which converges to text on the next turn. -/
def unknownThenTextOracle : ModelOracle := fun hist =>
  if hist.length ≤ 1 then GeminiResponse.mk [Candidate.mk [unknownCallPart, searchCallPart]]
  else textResponse unknownFinalText

/-- A `search_internet` call whose arguments lack the `query` key. -/
def badArgsCall : FunctionCall := ⟨"search_internet", [("q", "x")]⟩

/-- A model turn requesting `badArgsCall`. -/
def badArgsResponse : GeminiResponse := ⟨[⟨[{ function_call := some badArgsCall }]⟩]⟩

/-- A model that requests `badArgsCall` on every turn. -/
def badArgsOracle : ModelOracle := fun _ => badArgsResponse

/-- A tool call on which `handleCall` does not raise: either it is not a
`search_internet` call, or its arguments carry the `query` key. -/
def goodCall (c : FunctionCall) : Prop :=
  c.name = "search_internet" → (c.args.lookup "query").isSome = true

/-- The value `handleCall` produces on a call on which it does not raise. -/
def handleCallTotal (c : FunctionCall) : FunctionResponsePart :=
  if c.name = "search_internet" then
    ⟨"search_internet", ToolPayload.result (search_internet ((c.args.lookup "query").getD ""))⟩
  else ⟨c.name, ToolPayload.error "Herramienta no reconocida o no implementada."⟩

instance goodCallDecidable (c : FunctionCall) : Decidable (goodCall c) :=
  inferInstanceAs (Decidable (c.name = "search_internet" → (c.args.lookup "query").isSome = true))

lemma handleCall_eq_total (c : FunctionCall) (h : goodCall c) :
    handleCall c = Except.ok (handleCallTotal c) := by
  unfold handleCall handleCallTotal
  by_cases hn : c.name = "search_internet"
  · have hq := h hn
    cases hlook : c.args.lookup "query" with
    | none => rw [hlook] at hq; simp at hq
    | some q => simp [hn, hlook]
  · simp [hn]

lemma dispatchInto_eq (calls : List FunctionCall) (h : ∀ c ∈ calls, goodCall c) :
    ∀ acc, dispatchInto acc calls = Except.ok (acc ++ calls.map handleCallTotal) := by
  induction calls with
  | nil => intro acc; simp [dispatchInto]
  | cons c cs ih =>
    intro acc
    rw [dispatchInto, handleCall_eq_total c (h c (List.mem_cons_self c cs))]
    show dispatchInto (acc ++ [handleCallTotal c]) cs = _
    rw [ih (fun d hd => h d (List.mem_cons_of_mem c hd)) (acc ++ [handleCallTotal c])]
    simp

lemma toolLoop_step (oracle : ModelOracle) (fuel : Nat) (resp : GeminiResponse)
    (hist : List ChatMessage) (acc : List FunctionResponsePart)
    (hstruct : structureCheck resp = true)
    (hne : collectFunctionCalls (firstParts resp) ≠ [])
    (hgood : ∀ c ∈ collectFunctionCalls (firstParts resp), goodCall c) :
    toolLoop oracle (fuel + 1) resp hist acc =
      (match toolLoop oracle fuel
          (oracle (hist ++ [ChatMessage.toolResults
            (acc ++ (collectFunctionCalls (firstParts resp)).map handleCallTotal)]))
          (hist ++ [ChatMessage.toolResults
            (acc ++ (collectFunctionCalls (firstParts resp)).map handleCallTotal)]) [] with
        | Except.error e => Except.error e
        | Except.ok none => Except.ok none
        | Except.ok (some (r, msgs)) =>
          Except.ok (some (r,
            (acc ++ (collectFunctionCalls (firstParts resp)).map handleCallTotal) :: msgs))) := by
  have hempty : (collectFunctionCalls (firstParts resp)).isEmpty = false := by
    cases hcalls : collectFunctionCalls (firstParts resp) with
    | nil => exact absurd hcalls hne
    | cons c cs => rfl
  rw [toolLoop, hstruct]
  simp only [if_true, hempty, Bool.false_eq_true, if_false]
  rw [dispatchInto_eq _ hgood acc]

lemma toolLoop_alwaysTool (fuel : Nat) :
    ∀ (hist : List ChatMessage) (acc : List FunctionResponsePart),
      toolLoop alwaysToolOracle fuel toolCallResponse hist acc = Except.ok none := by
  induction fuel with
  | zero => intro hist acc; rfl
  | succ n ih =>
    intro hist acc
    rw [toolLoop_step alwaysToolOracle n toolCallResponse hist acc rfl
      (by decide) (by decide)]
    rw [show alwaysToolOracle (hist ++ [ChatMessage.toolResults
      (acc ++ (collectFunctionCalls (firstParts toolCallResponse)).map handleCallTotal)]) =
      toolCallResponse from rfl]
    rw [ih]

lemma gemini_analysis_rejects (data : AnalysisRequest)
    (h : (truthy data.eventName && truthy data.eventWebsite && truthy data.startupName &&
      truthy data.startupDescription && truthy data.startupSector &&
      truthy data.startupWebsite) = false)
    (oracle : ModelOracle) (src : Except String (List EventRecord)) (fuel : Nat) :
    gemini_analysis oracle src data fuel = some missingFieldsResult := by
  unfold gemini_analysis
  rw [h]
  rfl

lemma gemini_analysis_ne_missing (data : AnalysisRequest)
    (h : (truthy data.eventName && truthy data.eventWebsite && truthy data.startupName &&
      truthy data.startupDescription && truthy data.startupSector &&
      truthy data.startupWebsite) = true)
    (oracle : ModelOracle) (src : Except String (List EventRecord)) (fuel : Nat) :
    gemini_analysis oracle src data fuel ≠ some missingFieldsResult := by
  unfold gemini_analysis
  rw [h]
  simp only [Bool.not_true, Bool.false_eq_true, if_false]
  split
  · simp [missingFieldsResult]
  · simp
  · split
    · simp [missingFieldsResult]
    · simp [invalidAnalysisResult, missingFieldsResult]

lemma string_length_take (s : String) (n : Nat) : (s.take n).length = min n s.length := by
  show (s.take n).data.length = min n s.data.length
  rw [String.data_take, List.length_take]

lemma string_length_append (a b : String) : (a ++ b).length = a.length + b.length := by
  show (a ++ b).data.length = a.data.length + b.data.length
  rw [String.data_append, List.length_append]

lemma truncateAnalysis_length_le (s : String) : (truncateAnalysis s).length ≤ 700 := by
  unfold truncateAnalysis
  split
  · rename_i h
    rw [string_length_append, string_length_take]
    have hm : min 697 s.length = 697 := Nat.min_eq_left (by omega)
    have h3 : ("...".length) = 3 := rfl
    omega
  · omega

/-- A short final text used by concrete successful runs. -/
def okText : String :=
  "¡Este evento es muy prometedor para Voicit! Networking, visibilidad y posibles clientes en IA, RRHH y SaaS."

lemma toolLoop_text (oracle : ModelOracle) (fuel : Nat) (t : String)
    (hist : List ChatMessage) (acc : List FunctionResponsePart) :
    toolLoop oracle (fuel + 1) (textResponse t) hist acc =
      Except.ok (some (textResponse t, [])) := by
  rw [toolLoop]
  rfl

lemma finalText_textResponse (t : String) (h : ¬(t = "")) :
    finalText (textResponse t) = some t := by
  unfold finalText textResponse
  simp [h]

/-- C1: the spec requires the tool-call loop to perform at most a configured
number of round trips, with a `FAILED` outcome when a model requests tool
calls forever.  The code's `while True:` loop (lines 253-305) has no such cap:
with a model that answers every message with a `search_internet` call, the
loop is still running after every number of round trips (the fueled run
returns `Except.ok none`, never an outcome), so the handler never returns any
result at all — in particular never a structured error. -/
theorem C1_no_iteration_cap :
    (∀ (fuel : Nat) (hist : List ChatMessage) (acc : List FunctionResponsePart),
      toolLoop alwaysToolOracle fuel toolCallResponse hist acc = Except.ok none) ∧
    (∀ fuel : Nat,
      gemini_analysis alwaysToolOracle (Except.ok []) sampleRequest fuel = none) := by
  constructor
  · exact toolLoop_alwaysTool
  · intro fuel
    have hval : (truthy sampleRequest.eventName && truthy sampleRequest.eventWebsite &&
        truthy sampleRequest.startupName && truthy sampleRequest.startupDescription &&
        truthy sampleRequest.startupSector && truthy sampleRequest.startupWebsite) = true := rfl
    unfold gemini_analysis
    rw [hval]
    simp only [Bool.not_true, Bool.false_eq_true, if_false, alwaysToolOracle]
    rw [toolLoop_alwaysTool]

/-- C2 counterexample: the request of the spec's own scenario, carrying only
`eventName` and `startupDescription` (plus nothing else), is rejected with the
missing-fields error (HTTP 400) even though a model answering with final text
is available — the handler never reaches the model call. -/
theorem C2_counterexample :
    gemini_analysis (textOracle okText) (Except.ok []) minimalRequest 5 =
      some missingFieldsResult ∧
    missingFieldsResult =
      AnalysisResult.failure "Faltan datos en la solicitud para el análisis de Gemini." none 400 :=
  ⟨rfl, rfl⟩

/-- C2 (amended): the validation of line 185 requires ALL SIX fields
(`eventName`, `eventWebsite`, `startupName`, `startupDescription`,
`startupSector`, `startupWebsite`) to be present and non-empty: the handler
returns the missing-fields error exactly when some of the six is absent or
empty; when all six are non-empty it proceeds to the model exchange, and on a
successful exchange returns `{analysis: ...}`. -/
theorem C2_all_six_fields_required :
    (∀ (oracle : ModelOracle) (src : Except String (List EventRecord))
        (data : AnalysisRequest) (fuel : Nat),
      gemini_analysis oracle src data fuel = some missingFieldsResult ↔
        ¬(truthy data.eventName = true ∧ truthy data.eventWebsite = true ∧
          truthy data.startupName = true ∧ truthy data.startupDescription = true ∧
          truthy data.startupSector = true ∧ truthy data.startupWebsite = true)) ∧
    gemini_analysis (textOracle okText) (Except.ok []) sampleRequest 1 =
      some (AnalysisResult.success okText) := by
  constructor
  · intro oracle src data fuel
    cases hc : (truthy data.eventName && truthy data.eventWebsite && truthy data.startupName &&
        truthy data.startupDescription && truthy data.startupSector &&
        truthy data.startupWebsite) with
    | false =>
      constructor
      · intro _ hall
        rcases hall with ⟨h1, h2, h3, h4, h5, h6⟩
        rw [h1, h2, h3, h4, h5, h6] at hc
        simp at hc
      · intro _
        exact gemini_analysis_rejects data hc oracle src fuel
    | true =>
      constructor
      · intro h
        exact absurd h (gemini_analysis_ne_missing data hc oracle src fuel)
      · intro hn
        exfalso
        apply hn
        simp only [Bool.and_eq_true] at hc
        tauto
  · rfl

/-- C2 witness: the amended theorem applied at a concrete rejected request and
evaluated. -/
theorem C2_witness :
    gemini_analysis (textOracle okText) (Except.ok []) minimalRequest 2 =
      some missingFieldsResult := by
  exact (C2_all_six_fields_required.1 (textOracle okText) (Except.ok []) minimalRequest 2).mpr
    (by decide)

/-- C6: on a terminal text `t` the returned analysis is `t` verbatim when
`t.length ≤ 700`, and otherwise the first 697 characters of `t` with "..."
appended; in both cases the result has length at most 700.  The last conjunct
ties this to the handler: with a model that immediately answers `t`, the
endpoint returns exactly `truncateAnalysis t` as the analysis. -/
theorem C6_truncation_hard_cut (t : String) :
    (t.length ≤ 700 → truncateAnalysis t = t) ∧
    (700 < t.length → truncateAnalysis t = t.take 697 ++ "...") ∧
    (truncateAnalysis t).length ≤ 700 ∧
    (∀ fuel : Nat, ¬(t = "") →
      gemini_analysis (textOracle t) (Except.ok []) sampleRequest (fuel + 1) =
        some (AnalysisResult.success (truncateAnalysis t))) := by
  refine ⟨?_, ?_, truncateAnalysis_length_le t, ?_⟩
  · intro h
    unfold truncateAnalysis
    rw [if_neg (by omega)]
  · intro h
    unfold truncateAnalysis
    rw [if_pos h]
  · intro fuel ht
    have hval : (truthy sampleRequest.eventName && truthy sampleRequest.eventWebsite &&
        truthy sampleRequest.startupName && truthy sampleRequest.startupDescription &&
        truthy sampleRequest.startupSector && truthy sampleRequest.startupWebsite) = true := rfl
    unfold gemini_analysis
    rw [hval]
    simp only [Bool.not_true, Bool.false_eq_true, if_false, textOracle]
    rw [toolLoop_text]
    simp only []
    rw [finalText_textResponse t ht]

/-- C6 witness: the truncation facts evaluated at a short and at a long
concrete string, and the handler-level fact at a concrete run. -/
theorem C6_witness :
    truncateAnalysis "Texto corto." = "Texto corto." ∧
    truncateAnalysis (String.mk (List.replicate 701 'a')) =
      (String.mk (List.replicate 701 'a')).take 697 ++ "..." ∧
    gemini_analysis (textOracle "Texto corto.") (Except.ok []) sampleRequest 1 =
      some (AnalysisResult.success (truncateAnalysis "Texto corto.")) := by
  refine ⟨(C6_truncation_hard_cut "Texto corto.").1 (by decide),
    (C6_truncation_hard_cut (String.mk (List.replicate 701 'a'))).2.1
      (by show 700 < (List.replicate 701 'a').length; rw [List.length_replicate]; omega),
    (C6_truncation_hard_cut "Texto corto.").2.2.2 0 (by decide)⟩

/-- C7: truncation is idempotent — a string already within the 700-character
bound is returned unchanged, and applying the truncation twice equals applying
it once. -/
theorem C7_truncation_idempotent (s : String) :
    (s.length ≤ 700 → truncateAnalysis s = s) ∧
    truncateAnalysis (truncateAnalysis s) = truncateAnalysis s := by
  constructor
  · intro h
    unfold truncateAnalysis
    rw [if_neg (by omega)]
  · have hb := truncateAnalysis_length_le s
    generalize truncateAnalysis s = u at hb ⊢
    unfold truncateAnalysis
    rw [if_neg (by omega)]

/-- C7 witness: idempotence evaluated at a concrete string. -/
theorem C7_witness :
    truncateAnalysis "breve" = "breve" ∧
    truncateAnalysis (truncateAnalysis "breve") = truncateAnalysis "breve" :=
  ⟨(C7_truncation_idempotent "breve").1 (by decide), (C7_truncation_idempotent "breve").2⟩

/-- C9: a request missing a required field (`eventName` or
`startupDescription` falsy) is rejected with the missing-fields error result,
and the outcome is independent of the model oracle, the events source and the
fuel — i.e. no model call and no tool execution can influence it, encoding
"zero model calls, zero tool executions precede the rejection". -/
theorem C9_missing_required_field_rejected (data : AnalysisRequest)
    (h : truthy data.eventName = false ∨ truthy data.startupDescription = false) :
    ∀ (oracle oracle' : ModelOracle) (src src' : Except String (List EventRecord))
      (fuel fuel' : Nat),
      gemini_analysis oracle src data fuel = some missingFieldsResult ∧
      gemini_analysis oracle src data fuel = gemini_analysis oracle' src' data fuel' := by
  have hc : (truthy data.eventName && truthy data.eventWebsite && truthy data.startupName &&
      truthy data.startupDescription && truthy data.startupSector &&
      truthy data.startupWebsite) = false := by
    rcases h with h | h <;> simp [h]
  intro oracle oracle' src src' fuel fuel'
  exact ⟨gemini_analysis_rejects data hc oracle src fuel, by
    rw [gemini_analysis_rejects data hc oracle src fuel,
      gemini_analysis_rejects data hc oracle' src' fuel']⟩

/-- C9 witness: the theorem applied to a request missing only
`startupDescription`, against two different oracles, sources and fuels. -/
theorem C9_witness :
    gemini_analysis (textOracle okText) (Except.ok []) noDescRequest 3 =
      some missingFieldsResult ∧
    gemini_analysis (textOracle okText) (Except.ok []) noDescRequest 3 =
      gemini_analysis alwaysToolOracle (Except.error "db down") noDescRequest 7 :=
  C9_missing_required_field_rejected noDescRequest (Or.inr rfl)
    (textOracle okText) alwaysToolOracle (Except.ok []) (Except.error "db down") 3 7

/-- C10: a field that is present but equal to the empty string is treated
exactly like an absent field — the truthiness test of line 185 rejects the
request with the missing-fields error before any model call (independence from
oracle, source and fuel). -/
theorem C10_empty_string_field_rejected (data : AnalysisRequest)
    (h : data.eventName = some "" ∨ data.eventWebsite = some "" ∨
      data.startupName = some "" ∨ data.startupDescription = some "" ∨
      data.startupSector = some "" ∨ data.startupWebsite = some "") :
    ∀ (oracle oracle' : ModelOracle) (src src' : Except String (List EventRecord))
      (fuel fuel' : Nat),
      gemini_analysis oracle src data fuel = some missingFieldsResult ∧
      gemini_analysis oracle src data fuel = gemini_analysis oracle' src' data fuel' := by
  have hc : (truthy data.eventName && truthy data.eventWebsite && truthy data.startupName &&
      truthy data.startupDescription && truthy data.startupSector &&
      truthy data.startupWebsite) = false := by
    rcases h with h | h | h | h | h | h <;> rw [h] <;>
      simp [show truthy (some "") = false from rfl]
  intro oracle oracle' src src' fuel fuel'
  exact ⟨gemini_analysis_rejects data hc oracle src fuel, by
    rw [gemini_analysis_rejects data hc oracle src fuel,
      gemini_analysis_rejects data hc oracle' src' fuel']⟩

/-- C10 witness: a request whose `eventWebsite` is the empty string is
rejected identically under different oracles, sources and fuels. -/
theorem C10_witness :
    gemini_analysis (textOracle okText) (Except.ok []) emptyFieldRequest 3 =
      some missingFieldsResult ∧
    gemini_analysis (textOracle okText) (Except.ok []) emptyFieldRequest 3 =
      gemini_analysis alwaysToolOracle (Except.error "db down") emptyFieldRequest 9 :=
  C10_empty_string_field_rejected emptyFieldRequest (Or.inr (Or.inl rfl))
    (textOracle okText) alwaysToolOracle (Except.ok []) (Except.error "db down") 3 9

/-- A model turn consisting of a single `search_internet` call with the given
argument mapping. -/
def soloSearchResponse (args : List (String × String)) : GeminiResponse :=
  ⟨[⟨[{ function_call := some ⟨"search_internet", args⟩ }]⟩]⟩

/-- C3 counterexample: a batch whose first call is `search_internet` without a
`query` argument.  The dispatch loop raises instead of producing an
error-shaped tool result for that call — the second (well-formed) call is
never executed — and at the endpoint level the conversation aborts into the
top-level exception handler, which returns `{error, details}` (HTTP 500)
rather than feeding an error result back to the model. -/
theorem C3_counterexample :
    dispatchInto [] [badArgsCall, searchCall] = Except.error "\x27query\x27" ∧
    gemini_analysis badArgsOracle (Except.ok []) sampleRequest 5 =
      some (AnalysisResult.failure "Fallo al obtener el análisis de Gemini"
        (some "\x27query\x27") 500) :=
  ⟨rfl, rfl⟩

/-- C3 (amended): an exception raised by a tool handler invocation (the
`KeyError` from `call.args['query']` when a `search_internet` call lacks the
`query` argument) is NOT caught inside the dispatch loop: it aborts the
remainder of the batch, propagates out of the tool-call loop, and is caught
only by the endpoint's top-level handler, which turns it into a top-level
`{error, details}` result; only unrecognized tool NAMES are converted to
error-shaped per-call tool results. -/
theorem C3_handler_exception_aborts (args : List (String × String))
    (h : args.lookup "query" = none) :
    (∀ (acc : List FunctionResponsePart) (rest : List FunctionCall),
      dispatchInto acc (FunctionCall.mk "search_internet" args :: rest) =
        Except.error "\x27query\x27") ∧
    (∀ (oracle : ModelOracle) (fuel : Nat) (hist : List ChatMessage)
        (acc : List FunctionResponsePart),
      toolLoop oracle (fuel + 1) (soloSearchResponse args) hist acc =
        Except.error "\x27query\x27") ∧
    (∀ (src : Except String (List EventRecord)) (fuel : Nat),
      gemini_analysis (fun _ => soloSearchResponse args) src sampleRequest (fuel + 1) =
        some (AnalysisResult.failure "Fallo al obtener el análisis de Gemini"
          (some "\x27query\x27") 500)) := by
  have hd : ∀ (acc : List FunctionResponsePart) (rest : List FunctionCall),
      dispatchInto acc (FunctionCall.mk "search_internet" args :: rest) =
        Except.error "\x27query\x27" := by
    intro acc rest
    rw [dispatchInto]
    have hcall : handleCall (FunctionCall.mk "search_internet" args) =
        Except.error "\x27query\x27" := by
      unfold handleCall
      rw [if_pos rfl, h]
    rw [hcall]
  have hloop : ∀ (oracle : ModelOracle) (fuel : Nat) (hist : List ChatMessage)
      (acc : List FunctionResponsePart),
      toolLoop oracle (fuel + 1) (soloSearchResponse args) hist acc =
        Except.error "\x27query\x27" := by
    intro oracle fuel hist acc
    simp only [toolLoop,
      show structureCheck (soloSearchResponse args) = true from rfl,
      show collectFunctionCalls (firstParts (soloSearchResponse args)) =
        [FunctionCall.mk "search_internet" args] from rfl,
      if_true, List.isEmpty_cons, Bool.false_eq_true, if_false]
    rw [hd acc []]
  refine ⟨hd, hloop, ?_⟩
  intro src fuel
  have hval : (truthy sampleRequest.eventName && truthy sampleRequest.eventWebsite &&
      truthy sampleRequest.startupName && truthy sampleRequest.startupDescription &&
      truthy sampleRequest.startupSector && truthy sampleRequest.startupWebsite) = true := rfl
  unfold gemini_analysis
  rw [hval]
  simp only [Bool.not_true, Bool.false_eq_true, if_false]
  rw [hloop]

/-- C3 witness: the amended theorem at the concrete argument mapping
`{q: x}`, with the hypothesis discharged by evaluation. -/
theorem C3_witness :
    dispatchInto [] [FunctionCall.mk "search_internet" [("q", "x")], searchCall] =
      Except.error "\x27query\x27" ∧
    gemini_analysis (fun _ => soloSearchResponse [("q", "x")]) (Except.error "db down")
        sampleRequest 4 =
      some (AnalysisResult.failure "Fallo al obtener el análisis de Gemini"
        (some "\x27query\x27") 500) :=
  ⟨(C3_handler_exception_aborts [("q", "x")] (by decide)).1 [] [searchCall],
    (C3_handler_exception_aborts [("q", "x")] (by decide)).2.2 (Except.error "db down") 3⟩

/-- C4 counterexample: a model turn with one tool-call part (k = 1) whose
`search_internet` call lacks the `query` argument.  Dispatch does not produce
k = 1 results and no resubmission message is sent: the loop aborts with the
propagated exception. -/
theorem C4_counterexample :
    collectFunctionCalls (firstParts badArgsResponse) = [badArgsCall] ∧
    toolLoop (textOracle okText) 5 badArgsResponse [ChatMessage.prompt "p"] [] =
      Except.error "\x27query\x27" :=
  ⟨rfl, rfl⟩

/-- C4 (amended): for every model turn whose collected tool calls are
non-empty and whose `search_internet` calls all carry a `query` argument, the
dispatch step produces exactly one result per request, in request order
(`batch = calls.map handleCallTotal`), the whole batch is submitted back in
exactly ONE resubmission message (`ChatMessage.toolResults batch`, prepended
once to the message trace), and the accumulator is cleared (`[]`) for the next
turn. -/
theorem C4_batched_dispatch (oracle : ModelOracle) (fuel : Nat) (resp : GeminiResponse)
    (hist : List ChatMessage) (calls : List FunctionCall)
    (batch : List FunctionResponsePart)
    (hcalls : calls = collectFunctionCalls (firstParts resp))
    (hbatch : batch = calls.map handleCallTotal)
    (hstruct : structureCheck resp = true)
    (hne : ¬(calls = []))
    (hgood : ∀ c ∈ calls, goodCall c) :
    batch.length = calls.length ∧
    dispatchInto [] calls = Except.ok batch ∧
    toolLoop oracle (fuel + 1) resp hist [] =
      (match toolLoop oracle fuel (oracle (hist ++ [ChatMessage.toolResults batch]))
          (hist ++ [ChatMessage.toolResults batch]) [] with
        | Except.error e => Except.error e
        | Except.ok none => Except.ok none
        | Except.ok (some (r, msgs)) => Except.ok (some (r, batch :: msgs))) := by
  subst hbatch
  subst hcalls
  refine ⟨by simp, ?_, ?_⟩
  · simpa using dispatchInto_eq _ hgood []
  · simpa using toolLoop_step oracle fuel resp hist [] hstruct hne hgood

/-- C4 witness: a turn with two parallel tool calls (one unknown, one
search), dispatched into exactly two ordered results and one resubmission. -/
theorem C4_witness :
    ([unknownCall, searchCall].map handleCallTotal).length =
      [unknownCall, searchCall].length ∧
    dispatchInto [] [unknownCall, searchCall] =
      Except.ok ([unknownCall, searchCall].map handleCallTotal) ∧
    toolLoop (textOracle okText) 2 (GeminiResponse.mk [Candidate.mk [unknownCallPart, searchCallPart]])
        [ChatMessage.prompt "p"] [] =
      (match toolLoop (textOracle okText) 1
          (textOracle okText ([ChatMessage.prompt "p"] ++
            [ChatMessage.toolResults ([unknownCall, searchCall].map handleCallTotal)]))
          ([ChatMessage.prompt "p"] ++
            [ChatMessage.toolResults ([unknownCall, searchCall].map handleCallTotal)]) [] with
        | Except.error e => Except.error e
        | Except.ok none => Except.ok none
        | Except.ok (some (r, msgs)) =>
          Except.ok (some (r, ([unknownCall, searchCall].map handleCallTotal) :: msgs))) :=
  C4_batched_dispatch (textOracle okText) 1
    (GeminiResponse.mk [Candidate.mk [unknownCallPart, searchCallPart]])
    [ChatMessage.prompt "p"] [unknownCall, searchCall]
    ([unknownCall, searchCall].map handleCallTotal) rfl rfl rfl (by decide) (by decide)

/-- C5: a tool-call request whose name is not `search_internet` yields an
error-shaped tool result (`{error: ...}`) carrying its own name; the rest of
the batch is still dispatched (one result per call, in order); and the session
is not aborted — a concrete session whose first turn contains an unknown tool
call still reaches a final text outcome through the normal loop. -/
theorem C5_unknown_tool_error_result (c : FunctionCall) (acc : List FunctionResponsePart)
    (rest : List FunctionCall) (hname : ¬(c.name = "search_internet"))
    (hrest : ∀ r ∈ rest, goodCall r) :
    handleCall c = Except.ok (FunctionResponsePart.mk c.name
      (ToolPayload.error "Herramienta no reconocida o no implementada.")) ∧
    dispatchInto acc (c :: rest) = Except.ok (acc ++ FunctionResponsePart.mk c.name
      (ToolPayload.error "Herramienta no reconocida o no implementada.") ::
        rest.map handleCallTotal) ∧
    gemini_analysis unknownThenTextOracle (Except.ok []) sampleRequest 3 =
      some (AnalysisResult.success unknownFinalText) := by
  have h1 : handleCall c = Except.ok (FunctionResponsePart.mk c.name
      (ToolPayload.error "Herramienta no reconocida o no implementada.")) := by
    unfold handleCall
    rw [if_neg hname]
  refine ⟨h1, ?_, ?_⟩
  · have hall : ∀ r ∈ c :: rest, goodCall r := by
      intro r hr
      rcases List.mem_cons.mp hr with hx | hx
      · subst hx
        intro hn
        exact absurd hn hname
      · exact hrest r hx
    rw [dispatchInto_eq (c :: rest) hall acc]
    simp [handleCallTotal, hname]
  · rfl

/-- C5 witness: the theorem at the concrete unknown call `fetch_weather`
followed by a well-formed search call. -/
theorem C5_witness :
    handleCall unknownCall = Except.ok (FunctionResponsePart.mk "fetch_weather"
      (ToolPayload.error "Herramienta no reconocida o no implementada.")) ∧
    dispatchInto [] [unknownCall, searchCall] =
      Except.ok (FunctionResponsePart.mk "fetch_weather"
        (ToolPayload.error "Herramienta no reconocida o no implementada.") ::
          [searchCall].map handleCallTotal) ∧
    gemini_analysis unknownThenTextOracle (Except.ok []) sampleRequest 3 =
      some (AnalysisResult.success unknownFinalText) :=
  C5_unknown_tool_error_result unknownCall [] [searchCall] (by decide) (by decide)

/-- C8: when the candidate-event source raises, the request is not aborted:
the candidate list stays empty, the rendered list string is empty, the prompt
embeds the empty-list sentinel in place of the rendered list, the handler's
outcome is exactly the outcome it has on an empty event list, and a concrete
run with a failing source still completes the model exchange and returns an
analysis. -/
theorem C8_context_failure_degrades (m : String) (oracle : ModelOracle)
    (data : AnalysisRequest) (fuel : Nat) (sn sd ssec sw en ew : String) :
    buildEventsForGemini (Except.error m) = [] ∧
    eventsListStr [] data.eventName = "" ∧
    buildPrompt sn sd ssec sw en ew "" =
      promptHead sn sd ssec sw en ew ++ noAlternativesSentinel ++ promptTail sn ∧
    gemini_analysis oracle (Except.error m) data fuel =
      gemini_analysis oracle (Except.ok []) data fuel ∧
    gemini_analysis (textOracle okText) (Except.error m) sampleRequest 1 =
      some (AnalysisResult.success okText) :=
  ⟨rfl, rfl, rfl, rfl, rfl⟩
